import Mathlib

/-
Verification development for the DataPilot safety-stock calculation engine
(`server/services/safetyStockCalculator.ts`, final "Python-matching" variant
of `SafetyStockCalculator`).

Modelling conventions:
* JS numbers are modelled by exact rationals (`ℚ`).  `Math.sqrt` and
  `Math.log` are floating-point library routines whose values are not
  rational; they are passed as oracle parameters `sq lg : ℚ → ℚ` to every
  definition that uses them.  Claims about signs or structure hold for any
  oracle (with explicit non-negativity hypotheses where needed); concrete
  instances use an oracle that is exact on the perfect squares they touch.
* JS `Date` values produced by `new Date(y, m, d)` are local midnights; on a
  UTC server they are in bijection with civil calendar days, so dates are
  modelled as civil day numbers (`ℤ`, days since 1970-01-01), using the
  standard civil-calendar conversion.  `Date` month/day overflow rolls over,
  which the conversion below reproduces.  `toISOString().slice(0,10)` is
  injective on such dates, so the string-keyed `Map` of the source is
  modelled as a day-number-keyed association list.
* A `REF_DATE` string is abstracted by how it parses: it matches the
  `MM/DD/YYYY` regex (carrying the three numeric fields), or it is accepted
  by the generic `new Date(string)` parse (carrying the resulting day), or
  neither parses (`invalid`).
* Thrown exceptions are modelled with `Except String`.
-/

namespace DataPilot

/-! ## Civil-calendar day arithmetic (JS `Date` on a UTC server) -/

/-- Day number of the first day of month `m` (1-based) of year `y`,
counted from 1970-01-01, via the standard civil-from-days algorithm. -/
def firstOfMonthDayNo (y m : ℤ) : ℤ :=
  let y2 := if m ≤ 2 then y - 1 else y
  let era := Int.fdiv y2 400
  let yoe := y2 - era * 400
  let mp := if 2 < m then m - 3 else m + 9
  let doy := Int.fdiv (153 * mp + 2) 5
  let doe := yoe * 365 + Int.fdiv yoe 4 - Int.fdiv yoe 100 + doy
  era * 146097 + doe - 719468

/-- Day number denoted by the JS construction `new Date(year, monthIdx, day)`
(month index 0-based, with JS rollover normalisation of out-of-range month
indices and day-of-month values). -/
def jsDateDayNo (year monthIdx day : ℤ) : ℤ :=
  let ny := year + Int.fdiv monthIdx 12
  let nm := Int.emod monthIdx 12 + 1
  firstOfMonthDayNo ny nm + (day - 1)

/-- Year and (1-based) month containing day number `z`
(inverse civil conversion, `getFullYear`/`getMonth` of the JS date). -/
def civilYM (z : ℤ) : ℤ × ℤ :=
  let z2 := z + 719468
  let era := Int.fdiv z2 146097
  let doe := z2 - era * 146097
  let yoe := Int.fdiv (doe - Int.fdiv doe 1460 + Int.fdiv doe 36524 - Int.fdiv doe 146096) 365
  let y := yoe + era * 400
  let doy := doe - (365 * yoe + Int.fdiv yoe 4 - Int.fdiv yoe 100)
  let mp := Int.fdiv (5 * doy + 2) 153
  let m := if mp < 10 then mp + 3 else mp - 9
  (if m ≤ 2 then y + 1 else y, m)

/-- `new Date(d.getFullYear(), d.getMonth() + 1, 0)`: the last calendar day of
the month containing day `z`. -/
def monthEndOfDay (z : ℤ) : ℤ :=
  let ym := civilYM z
  jsDateDayNo ym.1 ym.2 0

/-! ## Date parsing (`SafetyStockCalculator.parseDate`) -/

/-- A raw `REF_DATE` value, abstracted by its parse outcome: a string matching
the `MM/DD/YYYY` regex with the three captured numbers, a non-matching string
accepted by the generic `new Date(string)` parse denoting the given day
number, or a string neither parse accepts. -/
inductive RefDate where
  | mdy (month day year : ℤ)
  | generic (dayNo : ℤ)
  | invalid
deriving DecidableEq

/-- `parseDate`: strict `MM/DD/YYYY` first (two-digit years get `+2000`),
falling back to the generic `Date` parse; `null` for unparseable input. -/
def parseDate : RefDate → Option ℤ
  | .mdy m d y => some (jsDateDayNo (if y < 100 then y + 2000 else y) (m - 1) d)
  | .generic dayNo => some dayNo
  | .invalid => none

/-! ## Row and result records (`@shared/schema`) -/

structure HistoryDataRow where
  ITEM_NAME : String
  ORG_CODE : String
  REF_DATE : RefDate
  REF_QTY : ℚ
deriving DecidableEq

structure ItemMasterRow where
  ITEM_NAME : String
  ORG_CODE : String
  LEAD_TIME : ℚ
  SUPPLY_LEAD_TIME_VAR_DAYS : ℚ
  SERVICE_LEVEL : ℚ
deriving DecidableEq

structure ForecastDataRow where
  ITEM_NAME : String
  ORG_CODE : String
  REF_DATE : RefDate
  REF_QTY : ℚ
  ERROR_TYPE : String
  FORECAST_ERR_PERCENT : ℚ
deriving DecidableEq

structure SafetyStockHistoryResult where
  ITEM_NAME : String
  ORG_CODE : String
  AVERAGE_DAILY_QTY : ℤ
  STD_DEV : ℚ
  LEAD_TIME : ℚ
  SUPPLY_LEAD_TIME_VAR_DAYS : ℚ
  SERVICE_LEVEL : ℚ
  SERVICE_FACTOR : ℚ
  SS_SUP : ℤ
  SS_DEMAND : ℤ
  TOTAL_SS : ℤ
  DAYS_OF_COVER : ℚ
deriving DecidableEq

structure SafetyStockForecastResult where
  ITEM_NAME : String
  ORG_CODE : String
  AVG_DAILY_FCST : ℤ
  FORECAST_ERR_PERCENT : ℚ
  LEAD_TIME : ℚ
  SERVICE_LEVEL : ℚ
  SERVICE_FACTOR : ℚ
  SAFETY_STOCK : ℤ
  DAYS_OF_COVER : ℚ
deriving DecidableEq

/-! ## Rounding (`Math.ceil`, `Math.round`) -/

/-- `Math.ceil`. -/
def jsCeil (q : ℚ) : ℤ := ⌈q⌉

/-- `Math.round` (round half toward positive infinity). -/
def jsRound (q : ℚ) : ℤ := ⌊q + 1/2⌋

/-! ## `SafetyStockCalculator.normInv` (Acklam-style inverse normal CDF) -/

def a1 : ℚ := -39.69683028665376
def a2 : ℚ := 220.9460984245205
def a3 : ℚ := -275.9285104469687
def a4 : ℚ := 138.357751867269
def a5 : ℚ := -30.66479806614716
def a6 : ℚ := 2.506628277459239

def b1 : ℚ := -54.47609879822406
def b2 : ℚ := 161.5858368580409
def b3 : ℚ := -155.6989798598866
def b4 : ℚ := 66.80131188771972
def b5 : ℚ := -13.28068155288572

def c1 : ℚ := -0.007784894002430293
def c2 : ℚ := -0.3223964580411365
def c3 : ℚ := -2.400758277161838
def c4 : ℚ := -2.549732539343734
def c5 : ℚ := 4.374664141464968
def c6 : ℚ := 2.938163982698783

def d1 : ℚ := 0.007784695709041462
def d2 : ℚ := 0.3224671290700398
def d3 : ℚ := 2.445134137142996
def d4 : ℚ := 3.754408661907416

def pLow : ℚ := 0.02425

def pHigh : ℚ := 1 - pLow

/-- Central-region numerator polynomial (Horner form from the source),
evaluated at `r = q * q`. -/
def centralNum (r : ℚ) : ℚ :=
  ((((a1 * r + a2) * r + a3) * r + a4) * r + a5) * r + a6

/-- Central-region denominator polynomial, evaluated at `r = q * q`. -/
def centralDen (r : ℚ) : ℚ :=
  ((((b1 * r + b2) * r + b3) * r + b4) * r + b5) * r + 1

/-- Tail-region numerator polynomial, evaluated at `q = sqrt(-2 log _)`. -/
def tailNum (q : ℚ) : ℚ :=
  ((((c1 * q + c2) * q + c3) * q + c4) * q + c5) * q + c6

/-- Tail-region denominator polynomial. -/
def tailDen (q : ℚ) : ℚ :=
  (((d1 * q + d2) * q + d3) * q + d4) * q + 1

/-- The three-region rational approximation returned by `normInv` once the
domain check has passed (`sq`, `lg` are the `Math.sqrt` / `Math.log`
oracles, used only in the two tail regions; the source binds
`q := p - 0.5`, `r := q * q` in the central region). -/
def normInvBody (sq lg : ℚ → ℚ) (p : ℚ) : ℚ :=
  if p < pLow then
    tailNum (sq (-2 * lg p)) / tailDen (sq (-2 * lg p))
  else if p ≤ pHigh then
    centralNum ((p - 0.5) * (p - 0.5)) * (p - 0.5) / centralDen ((p - 0.5) * (p - 0.5))
  else
    (-(tailNum (sq (-2 * lg (1 - p))))) / tailDen (sq (-2 * lg (1 - p)))

/-- `SafetyStockCalculator.normInv` with its domain check
(`throw` is modelled by `Except.error`). -/
def normInv (sq lg : ℚ → ℚ) (p : ℚ) : Except String ℚ :=
  if p < 0 ∨ 1 < p then Except.error "Input must be between 0 and 1"
  else Except.ok (normInvBody sq lg p)

/-- `true` exactly when an `Except` computation returned normally. -/
def exceptIsOk {α : Type} : Except String α → Bool
  | .ok _ => true
  | .error _ => false

/-! ## Grouping by the joined string key (JS `Map` + template literal) -/

/-- JS `key.split('|')` (split on every bar, keeping empty pieces). -/
def splitBarAux : List Char → List Char → List String
  | [], acc => [String.mk acc.reverse]
  | ch :: rest, acc =>
    if ch = '|' then String.mk acc.reverse :: splitBarAux rest []
    else splitBarAux rest (ch :: acc)

def jsSplitBar (s : String) : List String := splitBarAux s.toList []

/-- First component of the destructuring `const [itemName, orgCode] = parts`. -/
def part0 (parts : List String) : String := parts.headD ""

/-- Second component of the destructuring. -/
def part1 (parts : List String) : String := (parts.drop 1).headD ""

/-- Insertion into the insertion-ordered JS `Map<string, Row[]>`:
append to an existing key's array, else add a new entry at the end. -/
def insertGrouped {α : Type} : List (String × List α) → String → α → List (String × List α)
  | [], k, r => [(k, [r])]
  | (k2, rs) :: rest, k, r =>
    if k2 = k then (k2, rs ++ [r]) :: rest
    else (k2, rs) :: insertGrouped rest k r

/-- Grouping loop: one `Map` entry per distinct key, keys in first-seen
order, each entry holding its rows in input order. -/
def groupByKey {α : Type} (key : α → String) (l : List α) : List (String × List α) :=
  l.foldl (fun m r => insertGrouped m (key r) r) []

/-- The joined group key `` `${row.ITEM_NAME}|${row.ORG_CODE}` ``. -/
def historyKey (r : HistoryDataRow) : String := r.ITEM_NAME ++ "|" ++ r.ORG_CODE

def forecastKey (r : ForecastDataRow) : String := r.ITEM_NAME ++ "|" ++ r.ORG_CODE

/-! ## History pipeline (`calculateHistoryBased`) -/

/-- The (parsed day, quantity) pairs of the rows whose `REF_DATE` parses,
in input order: exactly the data the row loop accumulates, rows with
unparseable dates being skipped. -/
def validPairsH (rows : List HistoryDataRow) : List (ℤ × ℚ) :=
  rows.filterMap (fun r =>
    match parseDate r.REF_DATE with
    | none => none
    | some d => some (d, r.REF_QTY))

/-- Running `totalQty` accumulated over the valid rows. -/
def totalQtyOf (rows : List HistoryDataRow) : ℚ :=
  ((validPairsH rows).map (fun p => p.2)).sum

def listMinZ : List ℤ → Option ℤ
  | [] => none
  | x :: xs =>
    match listMinZ xs with
    | none => some x
    | some v => some (min x v)

def listMaxZ : List ℤ → Option ℤ
  | [] => none
  | x :: xs =>
    match listMaxZ xs with
    | none => some x
    | some v => some (max x v)

def listMinQ : List ℚ → Option ℚ
  | [] => none
  | x :: xs =>
    match listMinQ xs with
    | none => some x
    | some v => some (min x v)

/-- `minDate` tracked by the row loop (`null` when no row parses). -/
def minValidDate (rows : List HistoryDataRow) : Option ℤ :=
  listMinZ ((validPairsH rows).map (fun p => p.1))

/-- `maxDate` tracked by the row loop. -/
def maxValidDate (rows : List HistoryDataRow) : Option ℤ :=
  listMaxZ ((validPairsH rows).map (fun p => p.1))

/-- `durationDays = floor((maxMonthEnd - minDate) / msPerDay)`; both dates are
midnights, so the floor of the millisecond quotient is the exact day
difference. `none` when the group has no parseable date. -/
def historyDurationOf (rows : List HistoryDataRow) : Option ℤ :=
  match minValidDate rows, maxValidDate rows with
  | some mn, some mx => some (monthEndOfDay mx - mn)
  | _, _ => none

/-- One step of filling `qtyArrays` (`Map<iso, number[]>`): push the quantity
onto the array for its day. -/
def pushQty : List (ℤ × List ℚ) → ℤ → ℚ → List (ℤ × List ℚ)
  | [], d, q => [(d, [q])]
  | (k, vs) :: rest, d, q =>
    if k = d then (k, vs ++ [q]) :: rest
    else (k, vs) :: pushQty rest d q

/-- `qtyArrays` after the row loop. -/
def buildQtyArrays (vp : List (ℤ × ℚ)) : List (ℤ × List ℚ) :=
  vp.foldl (fun m p => pushQty m p.1 p.2) []

/-- `qtyArrays.get(iso)` (the empty array when the day is absent). -/
def lookupQtys : List (ℤ × List ℚ) → ℤ → List ℚ
  | [], _ => []
  | (k, vs) :: rest, d => if k = d then vs else lookupQtys rest d

/-- The calendar days from `lo` to `hi` inclusive, in order
(the `while (cur <= end)` walk). -/
def dayRange (lo hi : ℤ) : List ℤ :=
  (List.range (hi + 1 - lo).toNat).map (fun i => lo + (i : ℤ))

/-- The `samples` array: for each day of the walk, each stored quantity as a
separate sample, or a single `0` for a day with no entries. -/
def codeSamples (vp : List (ℤ × ℚ)) (lo hi : ℤ) : List ℚ :=
  (dayRange lo hi).flatMap (fun d =>
    let a := lookupQtys (buildQtyArrays vp) d
    if a.isEmpty then [0] else a)

/-- Population mean (`0` for the empty list, as in the source's `n ? _ : 0`). -/
def popMean (l : List ℚ) : ℚ :=
  if l.length = 0 then 0 else l.sum / l.length

/-- Population variance (divide by `N`, `0` for the empty list). -/
def popVariance (l : List ℚ) : ℚ :=
  if l.length = 0 then 0
  else ((l.map (fun v => (v - popMean l) * (v - popMean l))).sum) / l.length

/-- The per-group body of `calculateHistoryBased`: master lookup, date-range
and duration guards, samples, statistics, service factor and the safety-stock
formulas.  `Except.error` is the `normInv` throw escaping the loop;
`Except.ok none` is a `continue` (group skipped). -/
def processHistoryGroup (sq lg : ℚ → ℚ) (itemMaster : List ItemMasterRow)
    (itemName orgCode : String) (rows : List HistoryDataRow) :
    Except String (Option SafetyStockHistoryResult) :=
  match itemMaster.find? (fun m => decide (m.ITEM_NAME = itemName ∧ m.ORG_CODE = orgCode)) with
  | none => Except.ok none
  | some mst =>
    match minValidDate rows, maxValidDate rows with
    | some mn, some mx =>
      let maxMonthEnd := monthEndOfDay mx
      let durationDays : ℤ := maxMonthEnd - mn
      if durationDays ≤ 0 then Except.ok none
      else
        let avgDailyQty : ℤ := jsCeil (totalQtyOf rows / (durationDays : ℚ))
        let samples := codeSamples (validPairsH rows) mn maxMonthEnd
        let stdDev : ℚ := sq (popVariance samples)
        match normInv sq lg (mst.SERVICE_LEVEL / 100) with
        | .error e => Except.error e
        | .ok serviceFactor =>
          let ssSup : ℤ := jsCeil ((avgDailyQty : ℚ) * mst.SUPPLY_LEAD_TIME_VAR_DAYS)
          let ssDemand : ℤ :=
            jsCeil (stdDev * serviceFactor * sq (mst.LEAD_TIME + mst.SUPPLY_LEAD_TIME_VAR_DAYS))
          let totalSs : ℤ := ssSup + ssDemand
          let daysOfCover : ℚ :=
            if 0 < avgDailyQty then (totalSs : ℚ) / (avgDailyQty : ℚ) else 0
          Except.ok (some
            { ITEM_NAME := itemName
              ORG_CODE := orgCode
              AVERAGE_DAILY_QTY := avgDailyQty
              STD_DEV := stdDev
              LEAD_TIME := mst.LEAD_TIME
              SUPPLY_LEAD_TIME_VAR_DAYS := mst.SUPPLY_LEAD_TIME_VAR_DAYS
              SERVICE_LEVEL := mst.SERVICE_LEVEL
              SERVICE_FACTOR := serviceFactor
              SS_SUP := ssSup
              SS_DEMAND := ssDemand
              TOTAL_SS := totalSs
              DAYS_OF_COVER := daysOfCover })
    | _, _ => Except.ok none

/-- The group loop: results in group order; a thrown `normInv` error aborts
the whole calculation. -/
def runGroupsH (sq lg : ℚ → ℚ) (itemMaster : List ItemMasterRow) :
    List (String × List HistoryDataRow) → Except String (List SafetyStockHistoryResult)
  | [] => Except.ok []
  | (k, rows) :: rest =>
    match processHistoryGroup sq lg itemMaster (part0 (jsSplitBar k)) (part1 (jsSplitBar k)) rows with
    | .error e => Except.error e
    | .ok none => runGroupsH sq lg itemMaster rest
    | .ok (some r) =>
      match runGroupsH sq lg itemMaster rest with
      | .error e => Except.error e
      | .ok l => Except.ok (r :: l)

/-- `SafetyStockCalculator.calculateHistoryBased`. -/
def calculateHistoryBased (sq lg : ℚ → ℚ) (historyData : List HistoryDataRow)
    (itemMaster : List ItemMasterRow) : Except String (List SafetyStockHistoryResult) :=
  runGroupsH sq lg itemMaster (groupByKey historyKey historyData)

/-! ## Forecast pipeline (`calculateForecastBased`) -/

/-- The (parsed day, row) pairs of the forecast rows whose `REF_DATE` parses,
in input order (rows with unparseable dates are skipped with a warning). -/
def validPairsF (rows : List ForecastDataRow) : List (ℤ × ForecastDataRow) :=
  rows.filterMap (fun r =>
    match parseDate r.REF_DATE with
    | none => none
    | some d => some (d, r))

/-- `totalDurationDays`: each valid row contributes
`ceil((monthEnd - refDate) / msPerDay)`, which is the exact day count from the
row's own date to its month end. -/
def forecastTotalDaysOf (rows : List ForecastDataRow) : ℤ :=
  ((validPairsF rows).map (fun p => monthEndOfDay p.1 - p.1)).sum

/-- `totalQty` accumulated over the valid forecast rows. -/
def forecastTotalQtyOf (rows : List ForecastDataRow) : ℚ :=
  ((validPairsF rows).map (fun p => p.2.REF_QTY)).sum

/-- The `errPercents` array: the `FORECAST_ERR_PERCENT` of every valid row. -/
def errPercentsOf (rows : List ForecastDataRow) : List ℚ :=
  (validPairsF rows).map (fun p => p.2.FORECAST_ERR_PERCENT)

/-- The per-group body of `calculateForecastBased`. -/
def processForecastGroup (sq lg : ℚ → ℚ) (itemMaster : List ItemMasterRow)
    (itemName orgCode : String) (rows : List ForecastDataRow) :
    Except String (Option SafetyStockForecastResult) :=
  match itemMaster.find? (fun m => decide (m.ITEM_NAME = itemName ∧ m.ORG_CODE = orgCode)) with
  | none => Except.ok none
  | some mst =>
    let totalDurationDays : ℤ := forecastTotalDaysOf rows
    if totalDurationDays ≤ 0 then Except.ok none
    else
      let avgDailyFcst : ℤ := jsRound (forecastTotalQtyOf rows / (totalDurationDays : ℚ))
      let forecastErrPercent : ℚ :=
        match listMinQ (errPercentsOf rows) with
        | none => 0
        | some v => v
      match normInv sq lg (mst.SERVICE_LEVEL / 100) with
      | .error e => Except.error e
      | .ok serviceFactor =>
        let safetyStock : ℤ :=
          jsRound (1.25 * serviceFactor * (forecastErrPercent / 100) * sq 30 *
            (avgDailyFcst : ℚ) * sq mst.LEAD_TIME)
        let daysOfCover : ℚ :=
          if 0 < avgDailyFcst then ((jsRound ((safetyStock : ℚ) / (avgDailyFcst : ℚ))) : ℚ)
          else 0
        Except.ok (some
          { ITEM_NAME := itemName
            ORG_CODE := orgCode
            AVG_DAILY_FCST := avgDailyFcst
            FORECAST_ERR_PERCENT := forecastErrPercent
            LEAD_TIME := mst.LEAD_TIME
            SERVICE_LEVEL := mst.SERVICE_LEVEL
            SERVICE_FACTOR := serviceFactor
            SAFETY_STOCK := safetyStock
            DAYS_OF_COVER := daysOfCover })

/-- The forecast group loop. -/
def runGroupsF (sq lg : ℚ → ℚ) (itemMaster : List ItemMasterRow) :
    List (String × List ForecastDataRow) → Except String (List SafetyStockForecastResult)
  | [] => Except.ok []
  | (k, rows) :: rest =>
    match processForecastGroup sq lg itemMaster (part0 (jsSplitBar k)) (part1 (jsSplitBar k)) rows with
    | .error e => Except.error e
    | .ok none => runGroupsF sq lg itemMaster rest
    | .ok (some r) =>
      match runGroupsF sq lg itemMaster rest with
      | .error e => Except.error e
      | .ok l => Except.ok (r :: l)

/-- `SafetyStockCalculator.calculateForecastBased`. -/
def calculateForecastBased (sq lg : ℚ → ℚ) (forecastData : List ForecastDataRow)
    (itemMaster : List ItemMasterRow) : Except String (List SafetyStockForecastResult) :=
  runGroupsF sq lg itemMaster (groupByKey forecastKey forecastData)

/-! ## Spec-side description of the daily series (for the refinement claim) -/

/-- The daily series exactly as the spec words it (§4.2 step 6): walk every
calendar day from `lo` to `hi` inclusive; for each day append the quantity of
every record falling on that day (zero if none); a day with N records
contributes N entries. -/
def specDailySeries (rows : List HistoryDataRow) (lo hi : ℤ) : List ℚ :=
  (dayRange lo hi).flatMap (fun d =>
    let qs := (rows.filter (fun r => decide (parseDate r.REF_DATE = some d))).map
      (fun r => r.REF_QTY)
    if qs.isEmpty then [0] else qs)

/-! ## Concrete oracle instances and data for witnesses and counterexamples -/

/-- A `Math.sqrt` instance for concrete runs: it agrees exactly with the real
square root on the perfect squares the concrete inputs below reach
(0, 1, 4, 9), and is non-negative everywhere, which is all any theorem
assumes about the sqrt oracle. -/
def sqrtOracle (q : ℚ) : ℚ :=
  if q = 0 then 0 else if q = 1 then 1 else if q = 4 then 2 else if q = 9 then 3 else 0

/-- A `Math.log` instance for concrete runs; the concrete service levels used
below all take the central branch of `normInvBody`, which never consults the
log oracle. -/
def logOracle (_ : ℚ) : ℚ := 0

def w2rows : List HistoryDataRow := [⟨"A", "B", RefDate.invalid, 5⟩]

def w2master : List ItemMasterRow := [⟨"A", "B", 7, 2, 95⟩]

def w3rows : List HistoryDataRow :=
  [⟨"A", "B", RefDate.mdy 1 30 2024, 0⟩, ⟨"A", "B", RefDate.mdy 1 31 2024, 0⟩]

def w3master : List ItemMasterRow := [⟨"A", "B", 4, 0, 50⟩]

def w3res : SafetyStockHistoryResult :=
  { ITEM_NAME := "A", ORG_CODE := "B", AVERAGE_DAILY_QTY := 0, STD_DEV := 0,
    LEAD_TIME := 4, SUPPLY_LEAD_TIME_VAR_DAYS := 0, SERVICE_LEVEL := 50,
    SERVICE_FACTOR := 0, SS_SUP := 0, SS_DEMAND := 0, TOTAL_SS := 0, DAYS_OF_COVER := 0 }

def w4rows : List HistoryDataRow :=
  [⟨"WIDGET", "US01", RefDate.mdy 1 30 2024, 10⟩, ⟨"WIDGET", "US01", RefDate.mdy 1 31 2024, 10⟩]

def w4master : List ItemMasterRow := [⟨"WIDGET", "US01", 7, 2, 95⟩]

def w4res : SafetyStockHistoryResult :=
  { ITEM_NAME := "WIDGET", ORG_CODE := "US01", AVERAGE_DAILY_QTY := 20, STD_DEV := 0,
    LEAD_TIME := 7, SUPPLY_LEAD_TIME_VAR_DAYS := 2, SERVICE_LEVEL := 95,
    SERVICE_FACTOR := normInvBody sqrtOracle logOracle (95 / 100),
    SS_SUP := 40, SS_DEMAND := 0, TOTAL_SS := 40, DAYS_OF_COVER := 2 }

def cex4rows : List HistoryDataRow :=
  [⟨"A", "B", RefDate.mdy 1 30 2024, 1⟩, ⟨"A", "B", RefDate.mdy 1 31 2024, 3⟩]

def cex4master : List ItemMasterRow := [⟨"A", "B", 4, 0, 10⟩]

def cex4res : SafetyStockHistoryResult :=
  { ITEM_NAME := "A", ORG_CODE := "B", AVERAGE_DAILY_QTY := 4, STD_DEV := 1,
    LEAD_TIME := 4, SUPPLY_LEAD_TIME_VAR_DAYS := 0, SERVICE_LEVEL := 10,
    SERVICE_FACTOR := normInvBody sqrtOracle logOracle (10 / 100),
    SS_SUP := 0, SS_DEMAND := -2, TOTAL_SS := -2, DAYS_OF_COVER := -(1 / 2) }

def w5hrows : List HistoryDataRow := [⟨"A", "B", RefDate.mdy 1 31 2024, 5⟩]

def w5frows : List ForecastDataRow := [⟨"A", "B", RefDate.mdy 1 31 2024, 5, "MAPE", 10⟩]

def w5master : List ItemMasterRow := [⟨"A", "B", 4, 0, 50⟩]

def cex6rows : List ForecastDataRow :=
  [⟨"A", "B", RefDate.invalid, 10, "E", 5⟩, ⟨"A", "B", RefDate.mdy 1 15 2024, 20, "E", 8⟩]

def cex6master : List ItemMasterRow := [⟨"A", "B", 4, 0, 50⟩]

def cex6res : SafetyStockForecastResult :=
  { ITEM_NAME := "A", ORG_CODE := "B", AVG_DAILY_FCST := 1, FORECAST_ERR_PERCENT := 8,
    LEAD_TIME := 4, SERVICE_LEVEL := 50, SERVICE_FACTOR := 0,
    SAFETY_STOCK := 0, DAYS_OF_COVER := 0 }

def w6rows : List ForecastDataRow :=
  [⟨"A", "B", RefDate.mdy 1 10 2024, 10, "E", 12⟩, ⟨"A", "B", RefDate.mdy 1 15 2024, 20, "E", 8⟩]

def w6master : List ItemMasterRow := [⟨"A", "B", 4, 0, 50⟩]

def w6res : SafetyStockForecastResult :=
  { ITEM_NAME := "A", ORG_CODE := "B", AVG_DAILY_FCST := 1, FORECAST_ERR_PERCENT := 8,
    LEAD_TIME := 4, SERVICE_LEVEL := 50, SERVICE_FACTOR := 0,
    SAFETY_STOCK := 0, DAYS_OF_COVER := 0 }

def c9rows : List HistoryDataRow := [⟨"A|B", "C", RefDate.mdy 1 30 2024, 0⟩]

def c9master : List ItemMasterRow := [⟨"A", "B", 4, 0, 50⟩]

def c9res : SafetyStockHistoryResult :=
  { ITEM_NAME := "A", ORG_CODE := "B", AVERAGE_DAILY_QTY := 0, STD_DEV := 0,
    LEAD_TIME := 4, SUPPLY_LEAD_TIME_VAR_DAYS := 0, SERVICE_LEVEL := 50,
    SERVICE_FACTOR := 0, SS_SUP := 0, SS_DEMAND := 0, TOTAL_SS := 0, DAYS_OF_COVER := 0 }

def w10l1 : List ItemMasterRow := [⟨"A", "B", 7, 2, 95⟩]

def w10dup : ItemMasterRow := ⟨"A", "B", 9, 9, 60⟩

def w10hist : List HistoryDataRow := [⟨"A", "B", RefDate.mdy 1 30 2024, 0⟩]

def w10fc : List ForecastDataRow := [⟨"A", "B", RefDate.mdy 1 15 2024, 20, "E", 8⟩]

/-! ## Helper lemmas -/

theorem pLow_val : pLow = 97 / 4000 := by norm_num [pLow]

theorem pHigh_val : pHigh = 3903 / 4000 := by norm_num [pHigh, pLow]

/-! ## Claims about `normInv` -/

/-- C7: `normInv` raises its domain error exactly when `p < 0` or `p > 1`;
for every `p` in `[0, 1]` it returns normally (for any sqrt/log oracle). -/
theorem claim_C7 (sq lg : ℚ → ℚ) (p : ℚ) :
    exceptIsOk (normInv sq lg p) = false ↔ (p < 0 ∨ 1 < p) := by
  unfold normInv
  split_ifs with h
  · simpa [exceptIsOk] using h
  · simpa [exceptIsOk] using h

/-- C8: for `p` in the open interval `(0, 1)`, `normInv` returns normally and
its value satisfies the symmetry `normInv(p) = -normInv(1-p)`; in particular
`normInv(0.5) = 0` (exactly, in the rational model). -/
theorem claim_C8 (sq lg : ℚ → ℚ) (p : ℚ) (h0 : 0 < p) (h1 : p < 1) :
    normInv sq lg p = Except.ok (normInvBody sq lg p) ∧
    normInvBody sq lg p = -normInvBody sq lg (1 - p) ∧
    normInvBody sq lg (1 / 2) = 0 := by
  refine ⟨?_, ?_, ?_⟩
  · unfold normInv
    have hdom : ¬(p < 0 ∨ 1 < p) := by
      push_neg
      constructor <;> linarith
    rw [if_neg hdom]
  · have e1 : (1 : ℚ) - (1 - p) = p := by ring
    have e2 : (1 : ℚ) - p - 0.5 = -(p - 0.5) := by ring
    unfold normInvBody
    rw [pLow_val, pHigh_val]
    by_cases h2 : p < 97 / 4000
    · rw [if_pos h2, if_neg (by linarith), if_neg (by linarith), e1, neg_div, neg_neg]
    · rw [if_neg h2]
      by_cases h5 : p ≤ 3903 / 4000
      · rw [if_pos h5, if_neg (by linarith), if_pos (by linarith), e2]
        simp only [neg_mul_neg]
        simp only [mul_neg, neg_div, neg_neg]
      · rw [if_neg h5, if_pos (by linarith), neg_div]
  · unfold normInvBody
    rw [if_neg (by rw [pLow_val]; norm_num), if_pos (by rw [pHigh_val]; norm_num)]
    norm_num

/-- C8 witness: the theorem instantiated at `p = 3/4` with concrete oracles. -/
theorem claim_C8_witness :
    normInv (fun _ => 0) (fun _ => 0) (3 / 4) =
      Except.ok (normInvBody (fun _ => 0) (fun _ => 0) (3 / 4)) ∧
    normInvBody (fun _ => 0) (fun _ => 0) (3 / 4) =
      -normInvBody (fun _ => 0) (fun _ => 0) (1 - 3 / 4) ∧
    normInvBody (fun _ => 0) (fun _ => 0) (1 / 2) = 0 :=
  claim_C8 (fun _ => 0) (fun _ => 0) (3 / 4) (by norm_num) (by norm_num)

/-! ## The daily series (C1) -/

theorem lookupQtys_pushQty (m : List (ℤ × List ℚ)) (k d : ℤ) (q : ℚ) :
    lookupQtys (pushQty m k q) d =
      if k = d then lookupQtys m d ++ [q] else lookupQtys m d := by
  induction m with
  | nil =>
    by_cases h : k = d <;> simp [pushQty, lookupQtys, h]
  | cons hd tl ih =>
    obtain ⟨k2, vs⟩ := hd
    by_cases h1 : k2 = k
    · subst h1
      by_cases h2 : k2 = d <;> simp [pushQty, lookupQtys, h2]
    · have hstep : pushQty ((k2, vs) :: tl) k q = (k2, vs) :: pushQty tl k q := by
        simp [pushQty, h1]
      rw [hstep]
      by_cases h2 : k2 = d
      · subst h2
        have hkd : ¬k = k2 := fun h => h1 h.symm
        simp [lookupQtys, hkd]
      · simp [lookupQtys, h2, ih]

theorem lookupQtys_foldl (l : List (ℤ × ℚ)) (m : List (ℤ × List ℚ)) (d : ℤ) :
    lookupQtys (l.foldl (fun acc p => pushQty acc p.1 p.2) m) d =
      lookupQtys m d ++ (l.filter (fun p => decide (p.1 = d))).map (fun p => p.2) := by
  induction l generalizing m with
  | nil => simp
  | cons p tl ih =>
    rw [List.foldl_cons, ih, lookupQtys_pushQty]
    by_cases h : p.1 = d <;> simp [List.filter_cons, h]

theorem lookupQtys_buildQtyArrays (vp : List (ℤ × ℚ)) (d : ℤ) :
    lookupQtys (buildQtyArrays vp) d =
      (vp.filter (fun p => decide (p.1 = d))).map (fun p => p.2) := by
  have h := lookupQtys_foldl vp [] d
  simpa [buildQtyArrays, lookupQtys] using h

theorem validPairsH_filter_day (rows : List HistoryDataRow) (d : ℤ) :
    ((validPairsH rows).filter (fun p => decide (p.1 = d))).map (fun p => p.2) =
      (rows.filter (fun r => decide (parseDate r.REF_DATE = some d))).map
        (fun r => r.REF_QTY) := by
  induction rows with
  | nil => rfl
  | cons r tl ih =>
    cases h : parseDate r.REF_DATE with
    | none =>
      simpa [validPairsH, List.filterMap_cons, List.filter_cons, h] using ih
    | some dd =>
      by_cases h2 : dd = d
      · subst h2
        simpa [validPairsH, List.filterMap_cons, List.filter_cons, h] using ih
      · simpa [validPairsH, List.filterMap_cons, List.filter_cons, h, h2] using ih

/-- C1: the `samples` array used for the standard-deviation computation is
exactly the spec's daily series: it walks every calendar day from `lo` to
`hi` inclusive and appends, for each day, the quantity of every record
(with parseable date) falling on that day — a day with N records
contributes its N quantities as separate entries, a day with none a single
zero.  `processHistoryGroup` invokes `codeSamples` at `lo = minDate`,
`hi = end of month of maxDate`. -/
theorem claim_C1 (rows : List HistoryDataRow) (lo hi : ℤ) :
    codeSamples (validPairsH rows) lo hi = specDailySeries rows lo hi := by
  simp only [codeSamples, specDailySeries]
  congr 1
  funext d
  rw [lookupQtys_buildQtyArrays, validPairsH_filter_day]

/-! ## Unparseable dates (C2) -/

theorem validPairsH_nil_of_all_invalid (rows : List HistoryDataRow)
    (h : ∀ r ∈ rows, parseDate r.REF_DATE = none) : validPairsH rows = [] := by
  induction rows with
  | nil => rfl
  | cons r tl ih =>
    have h1 : parseDate r.REF_DATE = none := h r (List.mem_cons_self r tl)
    have h2 : validPairsH tl = [] := ih (fun x hx => h x (List.mem_cons_of_mem r hx))
    simp only [validPairsH, List.filterMap_cons, h1]
    exact h2

theorem validPairsH_filter_isSome (rows : List HistoryDataRow) :
    validPairsH (rows.filter (fun r => (parseDate r.REF_DATE).isSome)) =
      validPairsH rows := by
  induction rows with
  | nil => rfl
  | cons r tl ih =>
    cases h : parseDate r.REF_DATE with
    | none =>
      simpa [validPairsH, List.filter_cons, List.filterMap_cons, h] using ih
    | some dd =>
      simpa [validPairsH, List.filter_cons, List.filterMap_cons, h] using ih

/-- C2: in the history estimator, a record whose `REF_DATE` does not parse is
skipped without affecting the rest of its group (the group computes exactly
as if the unparseable rows were absent), and a group none of whose records
has a parseable date produces no output row at all. -/
theorem claim_C2 (sq lg : ℚ → ℚ) (itemMaster : List ItemMasterRow)
    (itemName orgCode : String) (rows : List HistoryDataRow) :
    ((∀ r ∈ rows, parseDate r.REF_DATE = none) →
      processHistoryGroup sq lg itemMaster itemName orgCode rows = Except.ok none) ∧
    processHistoryGroup sq lg itemMaster itemName orgCode rows =
      processHistoryGroup sq lg itemMaster itemName orgCode
        (rows.filter (fun r => (parseDate r.REF_DATE).isSome)) := by
  constructor
  · intro hall
    have hnil : validPairsH rows = [] := validPairsH_nil_of_all_invalid rows hall
    unfold processHistoryGroup
    cases hfind : itemMaster.find?
        (fun m => decide (m.ITEM_NAME = itemName ∧ m.ORG_CODE = orgCode)) with
    | none => rfl
    | some mst =>
      simp [minValidDate, maxValidDate, hnil, listMinZ, listMaxZ]
  · unfold processHistoryGroup minValidDate maxValidDate totalQtyOf
    rw [validPairsH_filter_isSome]

/-- C2 witness: a concrete one-row group whose only record has an
unparseable date is dropped entirely. -/
theorem claim_C2_witness :
    (∀ r ∈ w2rows, parseDate r.REF_DATE = none) ∧
    processHistoryGroup sqrtOracle logOracle w2master "A" "B" w2rows = Except.ok none := by
  have h : ∀ r ∈ w2rows, parseDate r.REF_DATE = none := by
    intro r hr
    simp only [w2rows, List.mem_singleton] at hr
    subst hr
    rfl
  exact ⟨h, (claim_C2 sqrtOracle logOracle w2master "A" "B" w2rows).1 h⟩

/-! ## Guarded division (C3) and degenerate durations (C5) -/

/-- C3: a history group that produces an output row with computed
`averageDailyQuantity = 0` reports `daysOfCover = 0` — the division is
guarded rather than raising. -/
theorem claim_C3 (sq lg : ℚ → ℚ) (itemMaster : List ItemMasterRow)
    (itemName orgCode : String) (rows : List HistoryDataRow)
    (res : SafetyStockHistoryResult)
    (h : processHistoryGroup sq lg itemMaster itemName orgCode rows =
      Except.ok (some res))
    (h0 : res.AVERAGE_DAILY_QTY = 0) : res.DAYS_OF_COVER = 0 := by
  simp only [processHistoryGroup] at h
  split at h
  · simp at h
  · split at h
    · split at h
      · simp at h
      · split at h
        · simp at h
        · simp only [Except.ok.injEq, Option.some.injEq] at h
          subst h
          simp only at h0 ⊢
          rw [h0]
          norm_num
    · simp at h

/-- C3 witness: a concrete group with all-zero quantities has
`averageDailyQuantity = 0` and reports `daysOfCover = 0`. -/
theorem claim_C3_witness :
    processHistoryGroup sqrtOracle logOracle w3master "A" "B" w3rows =
      Except.ok (some w3res) ∧ w3res.DAYS_OF_COVER = 0 := by
  have hp1 : parseDate (RefDate.mdy 1 30 2024) = some 19752 := by decide
  have hp2 : parseDate (RefDate.mdy 1 31 2024) = some 19753 := by decide
  have hme : monthEndOfDay 19753 = 19753 := by decide
  have hvp : validPairsH w3rows = [(19752, 0), (19753, 0)] := by
    simp [validPairsH, w3rows, List.filterMap_cons, hp1, hp2]
  have hmn : minValidDate w3rows = some 19752 := by
    rw [minValidDate, hvp]
    decide
  have hmx : maxValidDate w3rows = some 19753 := by
    rw [maxValidDate, hvp]
    decide
  have hrange : dayRange 19752 19753 = [19752, 19753] := by decide
  have hsamples : codeSamples (validPairsH w3rows) 19752 19753 = [0, 0] := by
    rw [hvp]
    simp [codeSamples, hrange, buildQtyArrays, pushQty, lookupQtys]
  have hvar : popVariance [0, 0] = 0 := by
    norm_num [popVariance, popMean]
  have hbody : normInvBody sqrtOracle logOracle (50 / 100) = 0 := by
    rw [normInvBody, if_neg (by rw [pLow_val]; norm_num),
      if_pos (by rw [pHigh_val]; norm_num)]
    norm_num
  have htq : totalQtyOf w3rows = 0 := by
    simp [totalQtyOf, hvp]
  have hfind : w3master.find?
      (fun m => decide (m.ITEM_NAME = "A" ∧ m.ORG_CODE = "B")) =
      some ⟨"A", "B", 4, 0, 50⟩ := by
    simp [w3master, List.find?]
  have heval : processHistoryGroup sqrtOracle logOracle w3master "A" "B" w3rows =
      Except.ok (some w3res) := by
    rw [processHistoryGroup, hfind, hmn, hmx]
    simp only [hme, hsamples, hvar, htq]
    rw [if_neg (show ¬((19753 : ℤ) - 19752 ≤ 0) by norm_num)]
    rw [normInv, if_neg (show ¬((50 : ℚ) / 100 < 0 ∨ 1 < (50 : ℚ) / 100) by norm_num)]
    simp only [hbody, sqrtOracle, w3res]
    norm_num [jsCeil]
  exact ⟨heval, claim_C3 sqrtOracle logOracle w3master "A" "B" w3rows w3res heval rfl⟩

/-- C5: a group whose computed duration is not positive is skipped: a history
group with `durationDays ≤ 0` and a forecast group with
`totalRemainingDays ≤ 0` both produce no output row (and in particular the
forecast estimator never divides by the non-positive duration). -/
theorem claim_C5 (sq lg : ℚ → ℚ) (itemMaster : List ItemMasterRow)
    (itemName orgCode : String) (hrows : List HistoryDataRow)
    (frows : List ForecastDataRow) (k : ℤ) :
    (historyDurationOf hrows = some k → k ≤ 0 →
      processHistoryGroup sq lg itemMaster itemName orgCode hrows = Except.ok none) ∧
    (forecastTotalDaysOf frows ≤ 0 →
      processForecastGroup sq lg itemMaster itemName orgCode frows = Except.ok none) := by
  constructor
  · intro hd hk
    unfold historyDurationOf at hd
    cases hmn : minValidDate hrows with
    | none => rw [hmn] at hd; simp at hd
    | some mn =>
      cases hmx : maxValidDate hrows with
      | none => rw [hmn, hmx] at hd; simp at hd
      | some mx =>
        rw [hmn, hmx] at hd
        simp only [Option.some.injEq] at hd
        rw [processHistoryGroup]
        cases hfind : itemMaster.find?
            (fun m => decide (m.ITEM_NAME = itemName ∧ m.ORG_CODE = orgCode)) with
        | none => rfl
        | some mst =>
          simp only [hmn, hmx, hd]
          rw [if_pos hk]
  · intro ht
    rw [processForecastGroup]
    cases hfind : itemMaster.find?
        (fun m => decide (m.ITEM_NAME = itemName ∧ m.ORG_CODE = orgCode)) with
    | none => rfl
    | some mst =>
      simp only [if_pos ht]

/-- C5 witness: a history group whose single record falls on its month's last
day has duration `0` and is skipped; likewise a forecast group whose single
record falls on its month's last day has `totalRemainingDays = 0` and is
skipped. -/
theorem claim_C5_witness :
    historyDurationOf w5hrows = some 0 ∧
    forecastTotalDaysOf w5frows ≤ 0 ∧
    processHistoryGroup sqrtOracle logOracle w5master "A" "B" w5hrows = Except.ok none ∧
    processForecastGroup sqrtOracle logOracle w5master "A" "B" w5frows = Except.ok none := by
  have h1 : historyDurationOf w5hrows = some 0 := by decide
  have h2 : forecastTotalDaysOf w5frows ≤ 0 := by decide
  exact ⟨h1, h2,
    (claim_C5 sqrtOracle logOracle w5master "A" "B" w5hrows w5frows 0).1 h1 le_rfl,
    (claim_C5 sqrtOracle logOracle w5master "A" "B" w5hrows w5frows 0).2 h2⟩

/-! ## Non-negativity of the outputs (C4) -/

theorem totalQtyOf_nonneg (rows : List HistoryDataRow)
    (hq : ∀ r ∈ rows, 0 ≤ r.REF_QTY) : 0 ≤ totalQtyOf rows := by
  induction rows with
  | nil => simp [totalQtyOf, validPairsH]
  | cons r tl ih =>
    have h1 : 0 ≤ r.REF_QTY := hq r (List.mem_cons_self r tl)
    have h2 : 0 ≤ totalQtyOf tl := ih (fun x hx => hq x (List.mem_cons_of_mem r hx))
    cases h : parseDate r.REF_DATE with
    | none =>
      simpa [totalQtyOf, validPairsH, List.filterMap_cons, h] using h2
    | some dd =>
      simp only [totalQtyOf, validPairsH, List.filterMap_cons, h, List.map_cons,
        List.sum_cons]
      exact add_nonneg h1 h2

/-- C4 (amended): for every history group that produces an output row, with
non-negative record quantities and a non-negative supply lead-time variance,
and whose service factor is non-negative — which holds for service levels in
[50, 100) but fails below 50, where the service factor is negative (see the
counterexample) — the emitted `totalSafetyStock` and `daysOfCover` are both
non-negative, for any non-negative sqrt oracle. -/
theorem claim_C4 (sq lg : ℚ → ℚ) (itemMaster : List ItemMasterRow)
    (itemName orgCode : String) (rows : List HistoryDataRow)
    (res : SafetyStockHistoryResult)
    (hsq : ∀ x, 0 ≤ sq x)
    (hq : ∀ r ∈ rows, 0 ≤ r.REF_QTY)
    (hvar : ∀ m ∈ itemMaster, 0 ≤ m.SUPPLY_LEAD_TIME_VAR_DAYS)
    (hsf : ∀ m ∈ itemMaster, 0 ≤ normInvBody sq lg (m.SERVICE_LEVEL / 100))
    (h : processHistoryGroup sq lg itemMaster itemName orgCode rows =
      Except.ok (some res)) :
    0 ≤ res.TOTAL_SS ∧ 0 ≤ res.DAYS_OF_COVER := by
  rw [processHistoryGroup] at h
  cases hfind : itemMaster.find?
      (fun m => decide (m.ITEM_NAME = itemName ∧ m.ORG_CODE = orgCode)) with
  | none => rw [hfind] at h; simp at h
  | some mst =>
    rw [hfind] at h
    have hmem : mst ∈ itemMaster := List.mem_of_find?_eq_some hfind
    cases hmn : minValidDate rows with
    | none => rw [hmn] at h; simp at h
    | some mn =>
      cases hmx : maxValidDate rows with
      | none => rw [hmn, hmx] at h; simp at h
      | some mx =>
        rw [hmn, hmx] at h
        simp only [] at h
        by_cases hdur : monthEndOfDay mx - mn ≤ 0
        · rw [if_pos hdur] at h; simp at h
        · rw [if_neg hdur] at h
          rw [normInv] at h
          by_cases hdom : mst.SERVICE_LEVEL / 100 < 0 ∨ 1 < mst.SERVICE_LEVEL / 100
          · rw [if_pos hdom] at h; simp at h
          · rw [if_neg hdom] at h
            simp only [Except.ok.injEq, Option.some.injEq] at h
            subst h
            have hdpos : (0 : ℤ) < monthEndOfDay mx - mn := lt_of_not_le hdur
            have havg : (0 : ℤ) ≤ jsCeil (totalQtyOf rows / ((monthEndOfDay mx - mn : ℤ) : ℚ)) := by
              apply Int.ceil_nonneg
              apply div_nonneg (totalQtyOf_nonneg rows hq)
              exact_mod_cast le_of_lt hdpos
            have hssSup : (0 : ℤ) ≤ jsCeil
                ((jsCeil (totalQtyOf rows / ((monthEndOfDay mx - mn : ℤ) : ℚ)) : ℚ) *
                  mst.SUPPLY_LEAD_TIME_VAR_DAYS) := by
              apply Int.ceil_nonneg
              apply mul_nonneg _ (hvar mst hmem)
              exact_mod_cast havg
            have hssDemand : (0 : ℤ) ≤ jsCeil
                (sq (popVariance (codeSamples (validPairsH rows) mn (monthEndOfDay mx))) *
                  normInvBody sq lg (mst.SERVICE_LEVEL / 100) *
                  sq (mst.LEAD_TIME + mst.SUPPLY_LEAD_TIME_VAR_DAYS)) := by
              apply Int.ceil_nonneg
              exact mul_nonneg (mul_nonneg (hsq _) (hsf mst hmem)) (hsq _)
            constructor
            · simp only []
              exact add_nonneg hssSup hssDemand
            · simp only []
              split_ifs with hpos
              · apply div_nonneg
                · exact_mod_cast add_nonneg hssSup hssDemand
                · exact_mod_cast le_of_lt hpos
              · exact le_refl 0

/-- C4 witness: the spec's own example group (service level 95) produces a
row with non-negative safety stock and days of cover. -/
theorem claim_C4_witness :
    processHistoryGroup sqrtOracle logOracle w4master "WIDGET" "US01" w4rows =
      Except.ok (some w4res) ∧ 0 ≤ w4res.TOTAL_SS ∧ 0 ≤ w4res.DAYS_OF_COVER := by
  have hp1 : parseDate (RefDate.mdy 1 30 2024) = some 19752 := by decide
  have hp2 : parseDate (RefDate.mdy 1 31 2024) = some 19753 := by decide
  have hme : monthEndOfDay 19753 = 19753 := by decide
  have hvp : validPairsH w4rows = [(19752, 10), (19753, 10)] := by
    simp [validPairsH, w4rows, List.filterMap_cons, hp1, hp2]
  have hmn : minValidDate w4rows = some 19752 := by
    rw [minValidDate, hvp]; decide
  have hmx : maxValidDate w4rows = some 19753 := by
    rw [maxValidDate, hvp]; decide
  have hrange : dayRange 19752 19753 = [19752, 19753] := by decide
  have hsamples : codeSamples (validPairsH w4rows) 19752 19753 = [10, 10] := by
    rw [hvp]
    simp [codeSamples, hrange, buildQtyArrays, pushQty, lookupQtys]
  have hvs : popVariance [10, 10] = 0 := by
    norm_num [popVariance, popMean]
  have htq : totalQtyOf w4rows = 20 := by
    norm_num [totalQtyOf, hvp]
  have hfind : w4master.find?
      (fun m => decide (m.ITEM_NAME = "WIDGET" ∧ m.ORG_CODE = "US01")) =
      some ⟨"WIDGET", "US01", 7, 2, 95⟩ := by
    simp [w4master, List.find?]
  have hs0 : sqrtOracle 0 = 0 := by norm_num [sqrtOracle]
  have heval : processHistoryGroup sqrtOracle logOracle w4master "WIDGET" "US01" w4rows =
      Except.ok (some w4res) := by
    rw [processHistoryGroup, hfind, hmn, hmx]
    simp only [hme, hsamples, hvs, htq]
    rw [if_neg (show ¬((19753 : ℤ) - 19752 ≤ 0) by norm_num)]
    rw [normInv, if_neg (show ¬((95 : ℚ) / 100 < 0 ∨ 1 < (95 : ℚ) / 100) by norm_num)]
    simp only [hs0]
    norm_num [w4res, jsCeil]
  have hsq : ∀ x, 0 ≤ sqrtOracle x := by
    intro x
    unfold sqrtOracle
    split_ifs <;> norm_num
  have hq : ∀ r ∈ w4rows, 0 ≤ r.REF_QTY := by
    intro r hr
    simp only [w4rows, List.mem_cons, List.not_mem_nil, or_false] at hr
    rcases hr with h | h <;> (subst h; norm_num)
  have hvar : ∀ m ∈ w4master, 0 ≤ m.SUPPLY_LEAD_TIME_VAR_DAYS := by
    intro m hm
    simp only [w4master, List.mem_singleton] at hm
    subst hm
    norm_num
  have hsf : ∀ m ∈ w4master,
      0 ≤ normInvBody sqrtOracle logOracle (m.SERVICE_LEVEL / 100) := by
    intro m hm
    simp only [w4master, List.mem_singleton] at hm
    subst hm
    show 0 ≤ normInvBody sqrtOracle logOracle ((95 : ℚ) / 100)
    rw [normInvBody, if_neg (by rw [pLow_val]; norm_num),
      if_pos (by rw [pHigh_val]; norm_num)]
    norm_num [centralNum, centralDen, a1, a2, a3, a4, a5, a6, b1, b2, b3, b4, b5]
  obtain ⟨h1, h2⟩ := claim_C4 sqrtOracle logOracle w4master "WIDGET" "US01" w4rows
    w4res hsq hq hvar hsf heval
  exact ⟨heval, h1, h2⟩

/-- C4 counterexample: at service level 10 (inside `(0, 100)`, below 50) the
service factor is negative and the code emits `TOTAL_SS = -2 < 0` and
`DAYS_OF_COVER = -1/2 < 0` for a group with valid master match, valid dates
and positive duration, so the claim as stated is false. -/
theorem claim_C4_counterexample :
    processHistoryGroup sqrtOracle logOracle cex4master "A" "B" cex4rows =
      Except.ok (some cex4res) ∧
    cex4res.TOTAL_SS < 0 ∧ cex4res.DAYS_OF_COVER < 0 ∧
    (0 : ℚ) < 10 ∧ (10 : ℚ) < 100 ∧ (10 : ℚ) < 50 := by
  have hp1 : parseDate (RefDate.mdy 1 30 2024) = some 19752 := by decide
  have hp2 : parseDate (RefDate.mdy 1 31 2024) = some 19753 := by decide
  have hme : monthEndOfDay 19753 = 19753 := by decide
  have hvp : validPairsH cex4rows = [(19752, 1), (19753, 3)] := by
    simp [validPairsH, cex4rows, List.filterMap_cons, hp1, hp2]
  have hmn : minValidDate cex4rows = some 19752 := by
    rw [minValidDate, hvp]; decide
  have hmx : maxValidDate cex4rows = some 19753 := by
    rw [maxValidDate, hvp]; decide
  have hrange : dayRange 19752 19753 = [19752, 19753] := by decide
  have hsamples : codeSamples (validPairsH cex4rows) 19752 19753 = [1, 3] := by
    rw [hvp]
    simp [codeSamples, hrange, buildQtyArrays, pushQty, lookupQtys]
  have hvs : popVariance [1, 3] = 1 := by
    norm_num [popVariance, popMean]
  have htq : totalQtyOf cex4rows = 4 := by
    norm_num [totalQtyOf, hvp]
  have hfind : cex4master.find?
      (fun m => decide (m.ITEM_NAME = "A" ∧ m.ORG_CODE = "B")) =
      some ⟨"A", "B", 4, 0, 10⟩ := by
    simp [cex4master, List.find?]
  have hs1 : sqrtOracle 1 = 1 := by norm_num [sqrtOracle]
  have hs4 : sqrtOracle 4 = 2 := by norm_num [sqrtOracle]
  have hsd : (⌈normInvBody sqrtOracle logOracle ((1 : ℚ) / 10) * 2⌉ : ℤ) = -2 := by
    rw [normInvBody, if_neg (by rw [pLow_val]; norm_num),
      if_pos (by rw [pHigh_val]; norm_num)]
    rw [Int.ceil_eq_iff]
    constructor <;>
      norm_num [centralNum, centralDen, a1, a2, a3, a4, a5, a6, b1, b2, b3, b4, b5]
  have heval : processHistoryGroup sqrtOracle logOracle cex4master "A" "B" cex4rows =
      Except.ok (some cex4res) := by
    rw [processHistoryGroup, hfind, hmn, hmx]
    simp only [hme, hsamples, hvs, htq]
    rw [if_neg (show ¬((19753 : ℤ) - 19752 ≤ 0) by norm_num)]
    rw [normInv, if_neg (show ¬((10 : ℚ) / 100 < 0 ∨ 1 < (10 : ℚ) / 100) by norm_num)]
    simp only [hs1]
    norm_num [cex4res, jsCeil, hs4, hsd]
  refine ⟨heval, ?_, ?_, by norm_num, by norm_num, by norm_num⟩
  · norm_num [cex4res]
  · norm_num [cex4res]

/-! ## Forecast error percent (C6) -/

/-- C6 (amended): for every forecast group that produces an output row, the
emitted `forecastErrorPercent` equals the minimum of the
`FORECAST_ERR_PERCENT` values collected from the group's records with
parseable dates (hence the minimum over the whole group whenever every date
parses — e.g. min of 12 and 8 is 8 — and not their average); records whose
dates do not parse are excluded from the minimum (see the counterexample). -/
theorem claim_C6 (sq lg : ℚ → ℚ) (itemMaster : List ItemMasterRow)
    (itemName orgCode : String) (rows : List ForecastDataRow)
    (res : SafetyStockForecastResult)
    (h : processForecastGroup sq lg itemMaster itemName orgCode rows =
      Except.ok (some res)) :
    listMinQ (errPercentsOf rows) = some res.FORECAST_ERR_PERCENT := by
  rw [processForecastGroup] at h
  cases hfind : itemMaster.find?
      (fun m => decide (m.ITEM_NAME = itemName ∧ m.ORG_CODE = orgCode)) with
  | none => rw [hfind] at h; simp at h
  | some mst =>
    rw [hfind] at h
    simp only [] at h
    by_cases ht : forecastTotalDaysOf rows ≤ 0
    · rw [if_pos ht] at h; simp at h
    · rw [if_neg ht] at h
      have hvp : validPairsF rows ≠ [] := by
        intro hnil
        apply ht
        rw [forecastTotalDaysOf, hnil]
        simp
      have herr : errPercentsOf rows ≠ [] := by
        rw [errPercentsOf]
        simpa using hvp
      cases he : listMinQ (errPercentsOf rows) with
      | none =>
        cases hl : errPercentsOf rows with
        | nil => exact absurd hl herr
        | cons a as =>
          rw [hl, listMinQ] at he
          cases hmas : listMinQ as <;> rw [hmas] at he <;> simp at he
      | some v =>
        rw [normInv] at h
        by_cases hdom : mst.SERVICE_LEVEL / 100 < 0 ∨ 1 < mst.SERVICE_LEVEL / 100
        · rw [if_pos hdom] at h; simp at h
        · rw [if_neg hdom, he] at h
          simp only [Except.ok.injEq, Option.some.injEq] at h
          subst h
          rfl

/-- C6 counterexample: a forecast group containing an unparseable-date record
with `FORECAST_ERR_PERCENT = 5` and a valid record with `8` emits `8`, while
the minimum over all the group's `FORECAST_ERR_PERCENT` values is `5`, so the
claim as stated (minimum over all values in the group) is false. -/
theorem claim_C6_counterexample :
    (processForecastGroup sqrtOracle logOracle cex6master "A" "B" cex6rows).map
        (Option.map (fun r => r.FORECAST_ERR_PERCENT)) = Except.ok (some 8) ∧
    listMinQ (cex6rows.map (fun r => r.FORECAST_ERR_PERCENT)) = some 5 ∧
    (8 : ℚ) ≠ 5 := by
  have hp2 : parseDate (RefDate.mdy 1 15 2024) = some 19737 := by decide
  have hme : monthEndOfDay 19737 = 19753 := by decide
  have hvpf : validPairsF cex6rows =
      [(19737, ⟨"A", "B", RefDate.mdy 1 15 2024, 20, "E", 8⟩)] := by
    have hpinv : parseDate RefDate.invalid = none := rfl
    simp [validPairsF, cex6rows, List.filterMap_cons, hp2, hpinv]
  have htd : forecastTotalDaysOf cex6rows = 16 := by
    rw [forecastTotalDaysOf, hvpf]
    simp [hme]
  have htq : forecastTotalQtyOf cex6rows = 20 := by
    rw [forecastTotalQtyOf, hvpf]
    norm_num
  have herr : errPercentsOf cex6rows = [8] := by
    rw [errPercentsOf, hvpf]
    norm_num
  have hfind : cex6master.find?
      (fun m => decide (m.ITEM_NAME = "A" ∧ m.ORG_CODE = "B")) =
      some ⟨"A", "B", 4, 0, 50⟩ := by
    simp [cex6master, List.find?]
  have hbody : normInvBody sqrtOracle logOracle (50 / 100) = 0 := by
    rw [normInvBody, if_neg (by rw [pLow_val]; norm_num),
      if_pos (by rw [pHigh_val]; norm_num)]
    norm_num
  have hround1 : jsRound ((20 : ℚ) / ((16 : ℤ) : ℚ)) = 1 := by
    rw [jsRound, Int.floor_eq_iff]
    constructor <;> norm_num
  have heval : processForecastGroup sqrtOracle logOracle cex6master "A" "B" cex6rows =
      Except.ok (some cex6res) := by
    rw [processForecastGroup, hfind]
    simp only [htd, htq, herr, listMinQ]
    rw [if_neg (show ¬((16 : ℤ) ≤ 0) by norm_num)]
    rw [normInv, if_neg (show ¬((50 : ℚ) / 100 < 0 ∨ 1 < (50 : ℚ) / 100) by norm_num)]
    simp only [hbody, hround1]
    norm_num [cex6res, jsRound]
  refine ⟨?_, ?_, by norm_num⟩
  · rw [heval]
    rfl
  · simp only [cex6rows, List.map_cons, List.map_nil, listMinQ]
    norm_num [min_def]

/-- C6 witness: the spec's example — a forecast group with error percents 12
and 8 (both dates parseable) emits the minimum, 8. -/
theorem claim_C6_witness :
    processForecastGroup sqrtOracle logOracle w6master "A" "B" w6rows =
      Except.ok (some w6res) ∧
    listMinQ (errPercentsOf w6rows) = some w6res.FORECAST_ERR_PERCENT ∧
    w6res.FORECAST_ERR_PERCENT = 8 := by
  have hp1 : parseDate (RefDate.mdy 1 10 2024) = some 19732 := by decide
  have hp2 : parseDate (RefDate.mdy 1 15 2024) = some 19737 := by decide
  have hme1 : monthEndOfDay 19732 = 19753 := by decide
  have hme2 : monthEndOfDay 19737 = 19753 := by decide
  have hvpf : validPairsF w6rows =
      [(19732, ⟨"A", "B", RefDate.mdy 1 10 2024, 10, "E", 12⟩),
       (19737, ⟨"A", "B", RefDate.mdy 1 15 2024, 20, "E", 8⟩)] := by
    simp [validPairsF, w6rows, List.filterMap_cons, hp1, hp2]
  have htd : forecastTotalDaysOf w6rows = 37 := by
    rw [forecastTotalDaysOf, hvpf]
    simp [hme1, hme2]
  have htq : forecastTotalQtyOf w6rows = 30 := by
    rw [forecastTotalQtyOf, hvpf]
    norm_num
  have herr : errPercentsOf w6rows = [12, 8] := by
    rw [errPercentsOf, hvpf]
    norm_num
  have hmin : listMinQ ([12, 8] : List ℚ) = some 8 := by
    simp only [listMinQ]
    norm_num [min_def]
  have hfind : w6master.find?
      (fun m => decide (m.ITEM_NAME = "A" ∧ m.ORG_CODE = "B")) =
      some ⟨"A", "B", 4, 0, 50⟩ := by
    simp [w6master, List.find?]
  have hbody : normInvBody sqrtOracle logOracle (50 / 100) = 0 := by
    rw [normInvBody, if_neg (by rw [pLow_val]; norm_num),
      if_pos (by rw [pHigh_val]; norm_num)]
    norm_num
  have hround1 : jsRound ((30 : ℚ) / ((37 : ℤ) : ℚ)) = 1 := by
    rw [jsRound, Int.floor_eq_iff]
    constructor <;> norm_num
  have heval : processForecastGroup sqrtOracle logOracle w6master "A" "B" w6rows =
      Except.ok (some w6res) := by
    rw [processForecastGroup, hfind]
    simp only [htd, htq, herr, hmin]
    rw [if_neg (show ¬((37 : ℤ) ≤ 0) by norm_num)]
    rw [normInv, if_neg (show ¬((50 : ℚ) / 100 < 0 ∨ 1 < (50 : ℚ) / 100) by norm_num)]
    simp only [hbody, hround1]
    norm_num [w6res, jsRound]
  have h2 := claim_C6 sqrtOracle logOracle w6master "A" "B" w6rows w6res heval
  exact ⟨heval, h2, rfl⟩

/-! ## Group-key misparse (C9) -/

/-- C9 (code bug): group keys are built by joining `ITEM_NAME` and `ORG_CODE`
with a bar and re-split on every bar, so a record with `ITEM_NAME = "A|B"`,
`ORG_CODE = "C"` is processed as item `"A"`, org `"B"`: it matches the master
row for `("A", "B")` and the emitted row carries `ITEM_NAME = "A"`,
`ORG_CODE = "B"`, not the fields of the records that formed the group. -/
theorem claim_C9 :
    calculateHistoryBased sqrtOracle logOracle c9rows c9master = Except.ok [c9res] ∧
    c9res.ITEM_NAME = "A" ∧ c9res.ORG_CODE = "B" ∧
    c9rows.map (fun r => (r.ITEM_NAME, r.ORG_CODE)) = [("A|B", "C")] := by
  have hp1 : parseDate (RefDate.mdy 1 30 2024) = some 19752 := by decide
  have hme : monthEndOfDay 19752 = 19753 := by decide
  have hvp : validPairsH c9rows = [(19752, 0)] := by
    simp [validPairsH, c9rows, List.filterMap_cons, hp1]
  have hmn : minValidDate c9rows = some 19752 := by
    rw [minValidDate, hvp]; decide
  have hmx : maxValidDate c9rows = some 19752 := by
    rw [maxValidDate, hvp]; decide
  have hrange : dayRange 19752 19753 = [19752, 19753] := by decide
  have hsamples : codeSamples (validPairsH c9rows) 19752 19753 = [0, 0] := by
    rw [hvp]
    simp [codeSamples, hrange, buildQtyArrays, pushQty, lookupQtys]
  have hvs : popVariance [0, 0] = 0 := by
    norm_num [popVariance, popMean]
  have htq : totalQtyOf c9rows = 0 := by
    simp [totalQtyOf, hvp]
  have hfind : c9master.find?
      (fun m => decide (m.ITEM_NAME = "A" ∧ m.ORG_CODE = "B")) =
      some ⟨"A", "B", 4, 0, 50⟩ := by
    simp [c9master, List.find?]
  have hbody : normInvBody sqrtOracle logOracle (50 / 100) = 0 := by
    rw [normInvBody, if_neg (by rw [pLow_val]; norm_num),
      if_pos (by rw [pHigh_val]; norm_num)]
    norm_num
  have hs0 : sqrtOracle 0 = 0 := by norm_num [sqrtOracle]
  have heval : processHistoryGroup sqrtOracle logOracle c9master "A" "B" c9rows =
      Except.ok (some c9res) := by
    rw [processHistoryGroup, hfind, hmn, hmx]
    simp only [hme, hsamples, hvs, htq]
    rw [if_neg (show ¬((19753 : ℤ) - 19752 ≤ 0) by norm_num)]
    rw [normInv, if_neg (show ¬((50 : ℚ) / 100 < 0 ∨ 1 < (50 : ℚ) / 100) by norm_num)]
    simp only [hbody, hs0]
    norm_num [c9res, jsCeil]
  have hkey : groupByKey historyKey c9rows = [("A|B|C", c9rows)] := by rfl
  have hpart0 : part0 (jsSplitBar "A|B|C") = "A" := by rfl
  have hpart1 : part1 (jsSplitBar "A|B|C") = "B" := by rfl
  refine ⟨?_, rfl, rfl, by simp [c9rows]⟩
  rw [calculateHistoryBased, hkey]
  simp only [runGroupsH, hpart0, hpart1, heval]

/-! ## Duplicate master rows (C10) -/

theorem find?_skip_dup (p : ItemMasterRow → Bool) (x y : List ItemMasterRow)
    (dup : ItemMasterRow) (hp : p dup = false) :
    (x ++ dup :: y).find? p = (x ++ y).find? p := by
  induction x with
  | nil =>
    simp only [List.nil_append]
    rw [List.find?_cons_of_neg _ (by simp [hp])]
  | cons a tl ih =>
    simp only [List.cons_append]
    cases hpa : p a with
    | true => rw [List.find?_cons_of_pos _ hpa, List.find?_cons_of_pos _ hpa]
    | false =>
      rw [List.find?_cons_of_neg _ (by simp [hpa]), List.find?_cons_of_neg _ (by simp [hpa])]
      exact ih

theorem find?_master_dup (l1 l2 : List ItemMasterRow) (dup : ItemMasterRow)
    (itemName orgCode : String)
    (hdup : ∃ m ∈ l1, m.ITEM_NAME = dup.ITEM_NAME ∧ m.ORG_CODE = dup.ORG_CODE) :
    (l1 ++ dup :: l2).find?
        (fun m => decide (m.ITEM_NAME = itemName ∧ m.ORG_CODE = orgCode)) =
      (l1 ++ l2).find?
        (fun m => decide (m.ITEM_NAME = itemName ∧ m.ORG_CODE = orgCode)) := by
  by_cases hd : dup.ITEM_NAME = itemName ∧ dup.ORG_CODE = orgCode
  · rcases hdup with ⟨m, hm, h1, h2⟩
    have hpm : (fun m => decide (m.ITEM_NAME = itemName ∧ m.ORG_CODE = orgCode)) m = true := by
      simp [h1.trans hd.1, h2.trans hd.2]
    have hsome : (l1.find?
        (fun m => decide (m.ITEM_NAME = itemName ∧ m.ORG_CODE = orgCode))).isSome :=
      List.find?_isSome.mpr ⟨m, hm, hpm⟩
    rw [List.find?_append, List.find?_append]
    cases hfl : l1.find?
        (fun m => decide (m.ITEM_NAME = itemName ∧ m.ORG_CODE = orgCode)) with
    | none => rw [hfl] at hsome; simp at hsome
    | some a => rfl
  · exact find?_skip_dup _ _ _ _ (by simpa using hd)

theorem processHistoryGroup_master_dup (sq lg : ℚ → ℚ)
    (l1 l2 : List ItemMasterRow) (dup : ItemMasterRow)
    (itemName orgCode : String) (rows : List HistoryDataRow)
    (hdup : ∃ m ∈ l1, m.ITEM_NAME = dup.ITEM_NAME ∧ m.ORG_CODE = dup.ORG_CODE) :
    processHistoryGroup sq lg (l1 ++ dup :: l2) itemName orgCode rows =
      processHistoryGroup sq lg (l1 ++ l2) itemName orgCode rows := by
  rw [processHistoryGroup, processHistoryGroup,
    find?_master_dup l1 l2 dup itemName orgCode hdup]

theorem processForecastGroup_master_dup (sq lg : ℚ → ℚ)
    (l1 l2 : List ItemMasterRow) (dup : ItemMasterRow)
    (itemName orgCode : String) (rows : List ForecastDataRow)
    (hdup : ∃ m ∈ l1, m.ITEM_NAME = dup.ITEM_NAME ∧ m.ORG_CODE = dup.ORG_CODE) :
    processForecastGroup sq lg (l1 ++ dup :: l2) itemName orgCode rows =
      processForecastGroup sq lg (l1 ++ l2) itemName orgCode rows := by
  rw [processForecastGroup, processForecastGroup,
    find?_master_dup l1 l2 dup itemName orgCode hdup]

theorem runGroupsH_congr (sq lg : ℚ → ℚ) (m1 m2 : List ItemMasterRow)
    (gs : List (String × List HistoryDataRow))
    (hp : ∀ itemName orgCode rows, processHistoryGroup sq lg m1 itemName orgCode rows =
      processHistoryGroup sq lg m2 itemName orgCode rows) :
    runGroupsH sq lg m1 gs = runGroupsH sq lg m2 gs := by
  induction gs with
  | nil => rfl
  | cons g tl ih =>
    obtain ⟨k, rows⟩ := g
    simp only [runGroupsH, hp, ih]

theorem runGroupsF_congr (sq lg : ℚ → ℚ) (m1 m2 : List ItemMasterRow)
    (gs : List (String × List ForecastDataRow))
    (hp : ∀ itemName orgCode rows, processForecastGroup sq lg m1 itemName orgCode rows =
      processForecastGroup sq lg m2 itemName orgCode rows) :
    runGroupsF sq lg m1 gs = runGroupsF sq lg m2 gs := by
  induction gs with
  | nil => rfl
  | cons g tl ih =>
    obtain ⟨k, rows⟩ := g
    simp only [runGroupsF, hp, ih]

/-- C10: when the item-master list contains a duplicate `(ITEM_NAME,
ORG_CODE)` row occurring after a row with the same keys, both estimators
behave exactly as if the duplicate were absent, on every input: the master
lookup (`find?`) takes the first matching row in input-list order, so later
duplicates never influence any output row. -/
theorem claim_C10 (sq lg : ℚ → ℚ) (l1 l2 : List ItemMasterRow)
    (dup : ItemMasterRow) (hist : List HistoryDataRow) (fc : List ForecastDataRow)
    (hdup : ∃ m ∈ l1, m.ITEM_NAME = dup.ITEM_NAME ∧ m.ORG_CODE = dup.ORG_CODE) :
    calculateHistoryBased sq lg hist (l1 ++ dup :: l2) =
      calculateHistoryBased sq lg hist (l1 ++ l2) ∧
    calculateForecastBased sq lg fc (l1 ++ dup :: l2) =
      calculateForecastBased sq lg fc (l1 ++ l2) := by
  constructor
  · rw [calculateHistoryBased, calculateHistoryBased]
    exact runGroupsH_congr sq lg (l1 ++ dup :: l2) (l1 ++ l2) _
      (fun i o rows => processHistoryGroup_master_dup sq lg l1 l2 dup i o rows hdup)
  · rw [calculateForecastBased, calculateForecastBased]
    exact runGroupsF_congr sq lg (l1 ++ dup :: l2) (l1 ++ l2) _
      (fun i o rows => processForecastGroup_master_dup sq lg l1 l2 dup i o rows hdup)

/-- C10 witness: appending a duplicate `("A", "B")` master row with different
lead time and service level leaves both estimators' outputs unchanged on
concrete data. -/
theorem claim_C10_witness :
    (∃ m ∈ w10l1, m.ITEM_NAME = w10dup.ITEM_NAME ∧ m.ORG_CODE = w10dup.ORG_CODE) ∧
    calculateHistoryBased sqrtOracle logOracle w10hist (w10l1 ++ w10dup :: []) =
      calculateHistoryBased sqrtOracle logOracle w10hist (w10l1 ++ []) ∧
    calculateForecastBased sqrtOracle logOracle w10fc (w10l1 ++ w10dup :: []) =
      calculateForecastBased sqrtOracle logOracle w10fc (w10l1 ++ []) := by
  have h : ∃ m ∈ w10l1, m.ITEM_NAME = w10dup.ITEM_NAME ∧ m.ORG_CODE = w10dup.ORG_CODE := by
    refine ⟨⟨"A", "B", 7, 2, 95⟩, by simp [w10l1], rfl, rfl⟩
  obtain ⟨h1, h2⟩ := claim_C10 sqrtOracle logOracle w10l1 [] w10dup w10hist w10fc h
  exact ⟨h, h1, h2⟩

end DataPilot
